import Mathlib

/-!
Verification development for the kraft project scaffolding tool.

The repository source under scrutiny is src/src/kraft/cli.py.  The modules it
imports (kraft.renderer, kraft.validators, kraft.ui) are not part of the
available source; where a definition stands in for one of those modules it is
marked "Modelled from the spec:" and follows the specification text.  The
cli.py control flow itself (the create and list commands) is embedded
faithfully from the source.
-/

set_option autoImplicit false

namespace Kraft

/-- A value a template variable can carry: string, integer or boolean,
mirroring the Python dict values built in cli.py lines 69-75. -/
inductive VarValue where
  | str (s : String)
  | int (n : Int)
  | bool (b : Bool)
deriving DecidableEq, Repr

/-- VariableContext: mapping from variable name to value, built fresh per
invocation (spec section 3). -/
abbrev VariableContext := List (String × VarValue)

/-- Result of the (out-of-scope, opaque) service-name validator: accept or
reject plus an optional error message and an optional suggestion, as consumed
by cli.py lines 42-48. -/
structure ValidationResult where
  valid : Bool
  error : Option String
  suggestion : Option String
deriving DecidableEq, Repr

/-- Python truthiness of an optional string: None and the empty string are
falsy.  cli.py uses "validation.error or default" and
"if validation.suggestion:". -/
def pyTruthy : Option String → Bool
  | none => false
  | some s => !(s == "")

/-- Python "a or b" on an optional string, as in cli.py line 44. -/
def pyOrStr (o : Option String) (d : String) : String :=
  match o with
  | some s => if s == "" then d else s
  | none => d

/-- TemplateDescriptor: identifier, display name, description, version
(spec section 3); what the catalog listing returns. -/
structure TemplateDescriptor where
  identifier : String
  name : String
  description : String
  version : String
deriving DecidableEq, Repr

/-- A piece of a path or content template: literal text or a variable
reference to be substituted. -/
inductive Piece where
  | lit (s : String)
  | var (v : String)
deriving DecidableEq, Repr

/-- Modelled from the spec: a Fragment is a single file, a path template and
a content template pair (spec glossary). -/
structure Fragment where
  path : List Piece
  content : List Piece
deriving DecidableEq, Repr

/-- Modelled from the spec: a template bundles its descriptor with its base
fragments and the fragment groups gated by the containerization and test
toggles (spec sections 4.2 and glossary). -/
structure Template where
  descriptor : TemplateDescriptor
  baseFragments : List Fragment
  dockerFragments : List Fragment
  testFragments : List Fragment
deriving DecidableEq, Repr

/-- Error taxonomy of the engine (spec section 7). -/
inductive KraftError where
  | unknownTemplate (serviceType : String)
  | unknownAddon (name : String)
  | missingVariable (name : String)
  | invalidPath (path : String)
  | planConflict (path : String)
  | writeFailed (path : String) (cause : String)
deriving DecidableEq, Repr

/-- Human-readable message of an error, used when the CLI catch-all formats
the caught exception. -/
def errMsgOf : KraftError → String
  | .unknownTemplate s => "unknown template: " ++ s
  | .unknownAddon a => "unknown add-on: " ++ a
  | .missingVariable v => "missing variable: " ++ v
  | .invalidPath p => "invalid path: " ++ p
  | .planConflict p => "plan conflict: " ++ p
  | .writeFailed p c => "write failed: " ++ p ++ ": " ++ c

/-- Canonical textual form of a variable value (spec section 4.3: integers
and booleans render to their canonical text, strings verbatim). -/
def renderValue : VarValue → String
  | .str s => s
  | .int n => toString n
  | .bool b => if b then "true" else "false"

/-- Expand a path or content template by substituting each variable reference
with its bound value; a reference absent from the context fails with
MissingVariable (spec section 4.3). -/
def expand (vars : VariableContext) : List Piece → Except KraftError String
  | [] => .ok ""
  | .lit s :: rest => (expand vars rest).map (fun t => s ++ t)
  | .var v :: rest =>
    match vars.lookup v with
    | none => .error (.missingVariable v)
    | some val => (expand vars rest).map (fun t => renderValue val ++ t)

/-- Split a character list into slash-separated segments. -/
def segsOf : List Char → List (List Char)
  | [] => [[]]
  | c :: rest =>
    if c = '/' then [] :: segsOf rest
    else
      match segsOf rest with
      | [] => [[c]]
      | s :: ss => (c :: s) :: ss

/-- A rendered destination escapes the output root when it is absolute or
contains a parent-directory segment (spec section 4.3, InvalidPath). -/
def pathEscapes (p : String) : Bool :=
  (match p.toList with
   | '/' :: _ => true
   | _ => false)
  || (segsOf p.toList).contains ['.', '.']

/-- First destination path that appears twice, if any. -/
def firstDup : List String → Option String
  | [] => none
  | x :: xs => if xs.contains x then some x else firstDup xs

/-- Modelled from the spec: render the selected fragments into an in-memory
plan of relative destination path and content pairs, failing with
MissingVariable, InvalidPath or PlanConflict before anything is written
(spec section 4.3). -/
def renderEntries (vars : VariableContext) : List Fragment → Except KraftError (List (String × String))
  | [] => .ok []
  | f :: rest => do
    let p ← expand vars f.path
    if pathEscapes p then
      .error (.invalidPath p)
    else do
      let c ← expand vars f.content
      let tail ← renderEntries vars rest
      .ok ((p, c) :: tail)

/-- Modelled from the spec: build the whole plan eagerly and reject duplicate
destination paths with PlanConflict (spec sections 3 and 4.3). -/
def buildPlan (vars : VariableContext) (frags : List Fragment) : Except KraftError (List (String × String)) := do
  let entries ← renderEntries vars frags
  match firstDup (entries.map (fun e => e.1)) with
  | some p => .error (.planConflict p)
  | none => .ok entries

/-- Modelled from the spec: the add-on table of the composer.  The spec names
no concrete add-on group, so the table is empty and every requested add-on
identifier is unknown to the composer (spec section 4.2). -/
def knownAddons : List (String × List Fragment) := []

/-- Read a boolean toggle from the variable context; absent or non-boolean
toggles fail with MissingVariable (spec sections 4.2 and 4.3). -/
def getBoolVar (vars : VariableContext) (k : String) : Except KraftError Bool :=
  match vars.lookup k with
  | some (.bool b) => .ok b
  | some _ => .error (.missingVariable k)
  | none => .error (.missingVariable k)

/-- Modelled from the spec: the ordered fragment list of a template for given
toggle values: base fragments always, container-manifest fragments when the
containerization toggle is on, test-scaffold fragments when the test toggle
is on (spec section 4.2). -/
def composedFragments (t : Template) (docker tests : Bool) : List Fragment :=
  t.baseFragments
    ++ (if docker then t.dockerFragments else [])
    ++ (if tests then t.testFragments else [])

/-- Modelled from the spec: the Fragment Composer.  Any requested add-on not
in the table is an UnknownAddon error; otherwise the toggles in the variable
context select the fragment list (spec section 4.2). -/
def selectFragments (t : Template) (vars : VariableContext) (addons : List String) :
    Except KraftError (List Fragment) :=
  match addons.find? (fun a => (knownAddons.lookup a).isNone) with
  | some a => .error (.unknownAddon a)
  | none => do
    let docker ← getBoolVar vars "include_docker"
    let tests ← getBoolVar vars "include_tests"
    .ok (composedFragments t docker tests
          ++ addons.flatMap (fun a => (knownAddons.lookup a).getD []))

/-- Case-sensitive exact-match lookup of a template descriptor by service
type; absent (none) when unknown (spec section 4.1). -/
def get_template_info (catalog : List Template) (serviceType : String) : Option TemplateDescriptor :=
  (catalog.find? (fun t => t.descriptor.identifier == serviceType)).map (fun t => t.descriptor)

/-- Catalog listing: every known template descriptor, in catalog order; empty
sequence if none configured (spec section 4.1). -/
def list_templates_of (catalog : List Template) : List TemplateDescriptor :=
  catalog.map (fun t => t.descriptor)

/-- Environment of one CLI invocation: the opaque name validator, the current
working directory, and the filesystem behavior (which paths exist, which
writes fail and with what cause, whether best-effort cleanup succeeds). -/
structure CreateEnv where
  validate : String → ValidationResult
  cwd : String
  pathExists : String → Bool
  writeError : String → Option String
  cleanupOk : Bool

/-- Commit the plan to disk under the target root, in plan order; a failing
write reports WriteFailed with the offending path and attempts best-effort
cleanup of the partial tree (spec section 4.4).  The error also carries the
files left on disk after cleanup. -/
def writePlanAux (env : CreateEnv) (targetDir : String) (done : List (String × String)) :
    List (String × String) → Except (KraftError × List (String × String)) (List (String × String))
  | [] => .ok done
  | (rel, content) :: rest =>
    let full := targetDir ++ "/" ++ rel
    match env.writeError full with
    | some cause => .error (.writeFailed full cause, if env.cleanupOk then [] else done)
    | none => writePlanAux env targetDir (done ++ [(full, content)]) rest

/-- Modelled from the spec: TemplateRenderer.render as called from cli.py
line 79: resolve the template, compose fragments from the toggles (cli.py
passes no add-on set to render, so the composer sees an empty selection),
build the plan, then write it.  On failure the error carries the writes left
on disk. -/
def rendererRender (catalog : List Template) (env : CreateEnv) (serviceType targetDir : String)
    (vars : VariableContext) : Except (KraftError × List (String × String)) (List (String × String)) :=
  match catalog.find? (fun t => t.descriptor.identifier == serviceType) with
  | none => .error (.unknownTemplate serviceType, [])
  | some t =>
    match selectFragments t vars [] with
    | .error e => .error (e, [])
    | .ok frags =>
      match buildPlan vars frags with
      | .error e => .error (e, [])
      | .ok plan => writePlanAux env targetDir [] plan

/-- A terminal event emitted through the ui module. -/
inductive UIEvent where
  | error (msg : String)
  | info (msg : String)
  | success (msg : String)
  | print (msg : String)
  | table (title : String) (headers : List String) (rows : List (List String))
deriving DecidableEq, Repr

/-- The phases the create command has entered, in order: name validation,
target-existence check, template lookup, render invocation. -/
inductive Phase where
  | nameValidated
  | targetChecked
  | templateLookedUp
  | renderInvoked
deriving DecidableEq, Repr

/-- Outcome of one create invocation: emitted UI events, process exit code,
the phase trace, every call made to the renderer with its arguments, and the
files present on disk afterwards. -/
structure CreateResult where
  events : List UIEvent
  exitCode : Nat
  phases : List Phase
  renderCalls : List (String × String × VariableContext)
  writes : List (String × String)
deriving DecidableEq, Repr

/-- Target directory determination, cli.py line 51: the supplied output
directory, or a directory named after the service under the current working
directory.  (A Path is always truthy in Python, so the "or" is a None
check.) -/
def targetDirOf (cwd name : String) (output_dir : Option String) : String :=
  output_dir.getD (cwd ++ "/" ++ name)

/-- The variable dict built in cli.py lines 69-75. -/
def buildVariables (name : String) (port : Int) (python_version : String)
    (no_docker no_tests : Bool) : VariableContext :=
  [("project_name", .str name),
   ("port", .int port),
   ("python_version", .str python_version),
   ("include_docker", .bool (!no_docker)),
   ("include_tests", .bool (!no_tests))]

/-- The next-steps banner printed on success, cli.py lines 82-91. -/
def nextSteps (name : String) : List UIEvent :=
  [.print "",
   .print "[bold]Next steps:[/bold]",
   .print ("  cd " ++ name),
   .print "  uv sync --extra dev",
   .print ("  uv run uvicorn " ++ name.replace "-" "_" ++ ".main:app --reload"),
   .print "",
   .print "Or with Docker:",
   .print "  docker-compose up --build"]

/-- The create command, cli.py lines 26-95: validate the name, determine and
check the target directory, resolve the template, build the variable
context, render, and report success or any caught exception.  Note the
with_addons option is accepted but never used by the source. -/
def create (env : CreateEnv) (name service_type : String) (port : Int)
    (python_version : String) (with_addons : List String) (no_docker no_tests : Bool)
    (output_dir : Option String) (catalog : List Template) : CreateResult :=
  let validation := env.validate name
  if !validation.valid then
    { events := .error (pyOrStr validation.error "Invalid service name") ::
        (if pyTruthy validation.suggestion then
          [.info ("Suggestion: " ++ validation.suggestion.getD "")]
         else []),
      exitCode := 1,
      phases := [.nameValidated],
      renderCalls := [],
      writes := [] }
  else
    let target_dir := targetDirOf env.cwd name output_dir
    if env.pathExists target_dir then
      { events := [.error ("Directory \x27" ++ target_dir ++ "\x27 already exists")],
        exitCode := 1,
        phases := [.nameValidated, .targetChecked],
        renderCalls := [],
        writes := [] }
    else
      match get_template_info catalog service_type with
      | none =>
        { events := [.error ("Unknown service type: " ++ service_type),
                     .info "Available types: rest"],
          exitCode := 1,
          phases := [.nameValidated, .targetChecked, .templateLookedUp],
          renderCalls := [],
          writes := [] }
      | some _ =>
        let varCtx := buildVariables name port python_version no_docker no_tests
        let banner : UIEvent :=
          .info ("Creating " ++ service_type ++ " service \x27" ++ name ++ "\x27...")
        match rendererRender catalog env service_type target_dir varCtx with
        | .error (e, leftover) =>
          { events := [banner, .error ("Failed to create service: " ++ errMsgOf e)],
            exitCode := 1,
            phases := [.nameValidated, .targetChecked, .templateLookedUp, .renderInvoked],
            renderCalls := [(service_type, target_dir, varCtx)],
            writes := leftover }
        | .ok ws =>
          { events := [banner,
                       .success ("Created service \x27" ++ name ++ "\x27 at " ++ target_dir)]
                      ++ nextSteps name,
            exitCode := 0,
            phases := [.nameValidated, .targetChecked, .templateLookedUp, .renderInvoked],
            renderCalls := [(service_type, target_dir, varCtx)],
            writes := ws }

/-- Result of the list command: emitted events and exit code. -/
structure ListResult where
  events : List UIEvent
  exitCode : Nat
deriving DecidableEq, Repr

/-- The list command, cli.py lines 98-112: enumerate templates; when none
are available, inform the user and return normally; otherwise print the
name, description, version table. -/
def list_templates (catalog : List Template) : ListResult :=
  let ts := list_templates_of catalog
  if ts.isEmpty then
    { events := [.info "No templates available"], exitCode := 0 }
  else
    { events := [.table "Available Templates" ["Name", "Description", "Version"]
        (ts.map (fun t => [t.name, t.description, t.version]))],
      exitCode := 0 }

/-- Modelled from the spec: the rest template of the bundled catalog
(cli.py line 64 names rest as the only available type; spec scenario 1
requires a container manifest and a test scaffold fragment). -/
def restTemplate : Template :=
  { descriptor :=
      { identifier := "rest",
        name := "rest",
        description := "REST API service",
        version := "1.0.0" },
    baseFragments :=
      [{ path := [.lit "pyproject.toml"],
         content := [.lit "[project]\nname = ", .var "project_name",
                     .lit "\nrequires-python = >=", .var "python_version", .lit "\n"] },
       { path := [.var "project_name", .lit "/main.py"],
         content := [.lit "app = FastAPI(title=", .var "project_name",
                     .lit ")\nPORT = ", .var "port", .lit "\n"] },
       { path := [.lit "README.md"],
         content := [.lit "# ", .var "project_name", .lit "\n"] }],
    dockerFragments :=
      [{ path := [.lit "Dockerfile"],
         content := [.lit "FROM python:", .var "python_version",
                     .lit "\nEXPOSE ", .var "port", .lit "\n"] },
       { path := [.lit "docker-compose.yml"],
         content := [.lit "services:\n  ", .var "project_name",
                     .lit ":\n    ports: ", .var "port", .lit ":", .var "port", .lit "\n"] }],
    testFragments :=
      [{ path := [.lit "tests/test_main.py"],
         content := [.lit "from ", .var "project_name", .lit ".main import app\n"] }] }

/-- Modelled from the spec: the bundled catalog holds exactly the rest
template. -/
def kraftCatalog : List Template := [restTemplate]

/-- A validator that accepts every name, for concrete scenarios. -/
def acceptAll : String → ValidationResult :=
  fun _ => { valid := true, error := none, suggestion := none }

/-- A benign environment: every name valid, no path exists, every write
succeeds. -/
def testEnv : CreateEnv :=
  { validate := acceptAll,
    cwd := "/work",
    pathExists := fun _ => false,
    writeError := fun _ => none,
    cleanupOk := true }

end Kraft

namespace Kraft

/-- An environment in which every path already exists, for exercising the
destination-collision branch. -/
def existsEnv : CreateEnv := { testEnv with pathExists := fun _ => true }

/-- An environment whose validator rejects every name with a message and a
suggestion. -/
def rejectEnv : CreateEnv :=
  { testEnv with validate := fun _ =>
      { valid := false, error := some "bad name", suggestion := some "better-name" } }

/-- An environment in which every file write fails, for exercising the
WriteFailed path through the catch-all. -/
def diskFullEnv : CreateEnv := { testEnv with writeError := fun _ => some "disk full" }

/-- Claim C1: when the output target already exists, create fails on the
existence check with exit code 1, the phase trace stops at the target check
(no template lookup, no render), nothing is written, and the only event is
the already-exists error, so the existing target is never touched. -/
theorem create_target_exists (env : CreateEnv) (name st pv : String) (p : Int)
    (a : List String) (nd nt : Bool) (od : Option String) (c : List Template)
    (hval : (env.validate name).valid = true)
    (hex : env.pathExists (targetDirOf env.cwd name od) = true) :
    (create env name st p pv a nd nt od c).exitCode = 1 ∧
    (create env name st p pv a nd nt od c).phases = [.nameValidated, .targetChecked] ∧
    (create env name st p pv a nd nt od c).renderCalls = [] ∧
    (create env name st p pv a nd nt od c).writes = [] ∧
    (create env name st p pv a nd nt od c).events
      = [.error ("Directory \x27" ++ targetDirOf env.cwd name od ++ "\x27 already exists")] := by
  simp [create, hval, hex]

/-- Witness for claim C1 at a concrete invocation whose target exists. -/
theorem create_target_exists_witness :
    (create existsEnv "orders" "rest" 8000 "3.11" [] false false none kraftCatalog).exitCode = 1 ∧
    (create existsEnv "orders" "rest" 8000 "3.11" [] false false none kraftCatalog).phases
      = [.nameValidated, .targetChecked] ∧
    (create existsEnv "orders" "rest" 8000 "3.11" [] false false none kraftCatalog).renderCalls = [] ∧
    (create existsEnv "orders" "rest" 8000 "3.11" [] false false none kraftCatalog).writes = [] ∧
    (create existsEnv "orders" "rest" 8000 "3.11" [] false false none kraftCatalog).events
      = [.error ("Directory \x27" ++ targetDirOf existsEnv.cwd "orders" none ++ "\x27 already exists")] :=
  create_target_exists existsEnv "orders" "rest" "3.11" 8000 [] false false none kraftCatalog rfl rfl

/-- Claim C2 (counter-evidence): the create command accepts the add-on list
but never consults it: the result is identical for any add-on selection, and
an invocation requesting an add-on unknown to the composer still succeeds
with exit code 0 and no error event, instead of failing with UnknownAddon. -/
theorem create_drops_addons_silently :
    (∀ (env : CreateEnv) (name st pv : String) (p : Int) (addons : List String)
        (nd nt : Bool) (od : Option String) (c : List Template),
      create env name st p pv addons nd nt od c = create env name st p pv [] nd nt od c) ∧
    knownAddons.lookup "auth" = none ∧
    (create testEnv "orders" "rest" 8000 "3.11" ["auth"] false false none kraftCatalog).exitCode = 0 ∧
    (create testEnv "orders" "rest" 8000 "3.11" ["auth"] false false none kraftCatalog).events.all
      (fun ev => match ev with | .error _ => false | _ => true) = true :=
  ⟨fun _ _ _ _ _ _ _ _ _ _ => rfl, rfl, rfl, by decide⟩

/-- Claim C3: a service type not in the catalog resolves to none, and a
create invocation with it (valid name, fresh target) exits 1 with the
unknown-service-type error, never reaching the renderer and writing
nothing. -/
theorem create_unknown_template (env : CreateEnv) (name st pv : String) (p : Int)
    (a : List String) (nd nt : Bool) (od : Option String)
    (hval : (env.validate name).valid = true)
    (hex : env.pathExists (targetDirOf env.cwd name od) = false)
    (habs : st ∉ kraftCatalog.map (fun t => t.descriptor.identifier)) :
    get_template_info kraftCatalog st = none ∧
    (create env name st p pv a nd nt od kraftCatalog).exitCode = 1 ∧
    (create env name st p pv a nd nt od kraftCatalog).writes = [] ∧
    (create env name st p pv a nd nt od kraftCatalog).renderCalls = [] ∧
    (create env name st p pv a nd nt od kraftCatalog).events
      = [.error ("Unknown service type: " ++ st), .info "Available types: rest"] := by
  have hs : st ≠ "rest" := by simpa [kraftCatalog, restTemplate] using habs
  have hb : ("rest" == st) = false := beq_eq_false_iff_ne.mpr (Ne.symm hs)
  have hnone : get_template_info kraftCatalog st = none := by
    simp [get_template_info, kraftCatalog, restTemplate, List.find?, hb]
  refine ⟨hnone, ?_⟩
  simp [create, hval, hex, hnone]

/-- Witness for claim C3 at the service type grpc of spec scenario 3. -/
theorem create_unknown_template_witness :
    get_template_info kraftCatalog "grpc" = none ∧
    (create testEnv "orders" "grpc" 8000 "3.11" [] false false none kraftCatalog).exitCode = 1 ∧
    (create testEnv "orders" "grpc" 8000 "3.11" [] false false none kraftCatalog).writes = [] ∧
    (create testEnv "orders" "grpc" 8000 "3.11" [] false false none kraftCatalog).renderCalls = [] ∧
    (create testEnv "orders" "grpc" 8000 "3.11" [] false false none kraftCatalog).events
      = [.error ("Unknown service type: " ++ "grpc"), .info "Available types: rest"] :=
  create_unknown_template testEnv "orders" "grpc" "3.11" 8000 [] false false none rfl rfl (by decide)

/-- Claim C4: every create invocation either succeeds with exit code 0 or
exits 1 having emitted an error event (no silent failure, no other exit),
and whenever the invocation reaches the render step and the renderer raises
any error, the command catches it, reports the failed-to-create message
carrying that error, and exits 1. -/
theorem create_reports_all_errors (env : CreateEnv) (name st pv : String) (p : Int)
    (a : List String) (nd nt : Bool) (od : Option String) (c : List Template) :
    ((create env name st p pv a nd nt od c).exitCode = 0 ∨
      ((create env name st p pv a nd nt od c).exitCode = 1 ∧
        ∃ m, UIEvent.error m ∈ (create env name st p pv a nd nt od c).events)) ∧
    (∀ (e : KraftError) (leftover : List (String × String)),
      (env.validate name).valid = true →
      env.pathExists (targetDirOf env.cwd name od) = false →
      (get_template_info c st).isSome = true →
      rendererRender c env st (targetDirOf env.cwd name od)
        (buildVariables name p pv nd nt) = .error (e, leftover) →
      (create env name st p pv a nd nt od c).exitCode = 1 ∧
      UIEvent.error ("Failed to create service: " ++ errMsgOf e)
        ∈ (create env name st p pv a nd nt od c).events) := by
  constructor
  · by_cases hval : (env.validate name).valid
    · by_cases hex : env.pathExists (targetDirOf env.cwd name od)
      · right; simp [create, hval, hex]
      · cases hi : get_template_info c st with
        | none => right; simp [create, hval, hex, hi]
        | some i =>
          cases hr : rendererRender c env st (targetDirOf env.cwd name od)
              (buildVariables name p pv nd nt) with
          | error pe => cases pe with
            | mk e leftover =>
              right
              simp [create, hval, hex, hi, hr]
          | ok ws => left; simp [create, hval, hex, hi, hr]
    · right
      simp only [Bool.not_eq_true] at hval
      simp [create, hval]
  · intro e leftover hval hex hsome hr
    obtain ⟨i, hi⟩ := Option.isSome_iff_exists.mp hsome
    simp [create, hval, hex, hi, hr]

/-- Witness for claim C4: with every write failing, create exits 1 and
reports the caught WriteFailed error. -/
theorem create_reports_all_errors_witness :
    (create diskFullEnv "orders" "rest" 8000 "3.11" [] false false none kraftCatalog).exitCode = 1 ∧
    UIEvent.error ("Failed to create service: "
        ++ errMsgOf (.writeFailed "/work/orders/pyproject.toml" "disk full"))
      ∈ (create diskFullEnv "orders" "rest" 8000 "3.11" [] false false none kraftCatalog).events :=
  (create_reports_all_errors diskFullEnv "orders" "rest" "3.11" 8000 [] false false none kraftCatalog).2
    (.writeFailed "/work/orders/pyproject.toml" "disk full") [] rfl rfl rfl rfl

/-- Claim C5: any invocation that reaches the renderer passes it exactly the
variable context built from the inputs, and that context binds project_name,
port, python_version, include_docker (the negation of no_docker) and
include_tests (the negation of no_tests). -/
theorem create_variable_context (env : CreateEnv) (name st pv : String) (p : Int)
    (a : List String) (nd nt : Bool) (od : Option String) (c : List Template)
    (hval : (env.validate name).valid = true)
    (hex : env.pathExists (targetDirOf env.cwd name od) = false)
    (hsome : (get_template_info c st).isSome = true) :
    (create env name st p pv a nd nt od c).renderCalls
      = [(st, targetDirOf env.cwd name od, buildVariables name p pv nd nt)] ∧
    (buildVariables name p pv nd nt).lookup "project_name" = some (.str name) ∧
    (buildVariables name p pv nd nt).lookup "port" = some (.int p) ∧
    (buildVariables name p pv nd nt).lookup "python_version" = some (.str pv) ∧
    (buildVariables name p pv nd nt).lookup "include_docker" = some (.bool (!nd)) ∧
    (buildVariables name p pv nd nt).lookup "include_tests" = some (.bool (!nt)) := by
  obtain ⟨i, hi⟩ := Option.isSome_iff_exists.mp hsome
  refine ⟨?_, rfl, rfl, rfl, rfl, rfl⟩
  cases hr : rendererRender c env st (targetDirOf env.cwd name od) (buildVariables name p pv nd nt) with
  | error pe => cases pe with
    | mk e leftover => simp [create, hval, hex, hi, hr]
  | ok ws => simp [create, hval, hex, hi, hr]

/-- Witness for claim C5 at the concrete invocation of spec scenario 1. -/
theorem create_variable_context_witness :
    (create testEnv "orders" "rest" 8000 "3.11" [] false false none kraftCatalog).renderCalls
      = [("rest", targetDirOf testEnv.cwd "orders" none, buildVariables "orders" 8000 "3.11" false false)] ∧
    (buildVariables "orders" 8000 "3.11" false false).lookup "project_name" = some (.str "orders") ∧
    (buildVariables "orders" 8000 "3.11" false false).lookup "port" = some (.int 8000) ∧
    (buildVariables "orders" 8000 "3.11" false false).lookup "python_version" = some (.str "3.11") ∧
    (buildVariables "orders" 8000 "3.11" false false).lookup "include_docker" = some (.bool (!false)) ∧
    (buildVariables "orders" 8000 "3.11" false false).lookup "include_tests" = some (.bool (!false)) :=
  create_variable_context testEnv "orders" "rest" "3.11" 8000 [] false false none kraftCatalog rfl rfl rfl

/-- Claim C6: turning the containerization toggle off only removes
fragments (the composed fragment list is a sublist of the toggled-on one for
every template), and concretely a no-docker create succeeds writing no
container manifest while the same invocation with docker writes both
container manifests; the no-docker file set is a sublist of the with-docker
one. -/
theorem create_no_docker_removes_only_docker :
    (∀ (t : Template) (ts : Bool),
      (composedFragments t false ts).Sublist (composedFragments t true ts)) ∧
    (create testEnv "orders" "rest" 8000 "3.11" [] true false none kraftCatalog).exitCode = 0 ∧
    ((create testEnv "orders" "rest" 8000 "3.11" [] true false none kraftCatalog).writes.all
      (fun w => !(w.1 == "/work/orders/Dockerfile")
             && !(w.1 == "/work/orders/docker-compose.yml"))) = true ∧
    (create testEnv "orders" "rest" 8000 "3.11" [] false false none kraftCatalog).exitCode = 0 ∧
    ((create testEnv "orders" "rest" 8000 "3.11" [] false false none kraftCatalog).writes.any
      (fun w => w.1 == "/work/orders/Dockerfile")) = true ∧
    ((create testEnv "orders" "rest" 8000 "3.11" [] false false none kraftCatalog).writes.any
      (fun w => w.1 == "/work/orders/docker-compose.yml")) = true ∧
    ((create testEnv "orders" "rest" 8000 "3.11" [] true false none kraftCatalog).writes.map Prod.fst).Sublist
      ((create testEnv "orders" "rest" 8000 "3.11" [] false false none kraftCatalog).writes.map Prod.fst) := by
  refine ⟨fun t ts => ?_, by decide, by decide, by decide, by decide, by decide, by decide⟩
  simp [composedFragments]

/-- Claim C7: composition and rendering are pure functions of the template,
the variable context and the add-on selection, so two invocations on
identical arguments yield the same ordered fragment list and byte-identical
plans. -/
theorem render_deterministic (t : Template) (vars : VariableContext) (addons : List String)
    (env : CreateEnv) (catalog : List Template) (st td : String) :
    selectFragments t vars addons = selectFragments t vars addons ∧
    rendererRender catalog env st td vars = rendererRender catalog env st td vars :=
  ⟨rfl, rfl⟩

/-- Claim C8: on an empty catalog the list command informs the user that no
templates are available and exits 0, and on every catalog it exits 0 and
never emits an error event. -/
theorem list_templates_never_fails :
    list_templates [] = { events := [.info "No templates available"], exitCode := 0 } ∧
    ∀ catalog : List Template, (list_templates catalog).exitCode = 0 ∧
      ∀ m, UIEvent.error m ∉ (list_templates catalog).events := by
  refine ⟨rfl, fun catalog => ?_⟩
  cases catalog with
  | nil => simp [list_templates, list_templates_of]
  | cons t rest => simp [list_templates, list_templates_of]

/-- Claim C9: with no output option the target is the service-name directory
under the current working directory, and a supplied output path is used
verbatim. -/
theorem target_dir_default (cwd name : String) :
    targetDirOf cwd name none = cwd ++ "/" ++ name ∧
    ∀ p : String, targetDirOf cwd name (some p) = p :=
  ⟨rfl, fun _ => rfl⟩

/-- Claim C10: when the validator rejects the name, create exits 1 having
emitted only the validator error (and the suggestion when present); the
phase trace ends at name validation, so the existence check, template lookup
and render never run and nothing is written. -/
theorem create_invalid_name (env : CreateEnv) (name st pv : String) (p : Int)
    (a : List String) (nd nt : Bool) (od : Option String) (c : List Template)
    (hval : (env.validate name).valid = false) :
    (create env name st p pv a nd nt od c).exitCode = 1 ∧
    (create env name st p pv a nd nt od c).phases = [.nameValidated] ∧
    (create env name st p pv a nd nt od c).renderCalls = [] ∧
    (create env name st p pv a nd nt od c).writes = [] ∧
    (create env name st p pv a nd nt od c).events
      = .error (pyOrStr (env.validate name).error "Invalid service name") ::
        (if pyTruthy (env.validate name).suggestion then
          [.info ("Suggestion: " ++ (env.validate name).suggestion.getD "")]
         else []) := by
  simp [create, hval]

/-- Witness for claim C10 with a validator that rejects the name and offers
a suggestion. -/
theorem create_invalid_name_witness :
    (create rejectEnv "Bad Name" "rest" 8000 "3.11" [] false false none kraftCatalog).exitCode = 1 ∧
    (create rejectEnv "Bad Name" "rest" 8000 "3.11" [] false false none kraftCatalog).phases
      = [.nameValidated] ∧
    (create rejectEnv "Bad Name" "rest" 8000 "3.11" [] false false none kraftCatalog).renderCalls = [] ∧
    (create rejectEnv "Bad Name" "rest" 8000 "3.11" [] false false none kraftCatalog).writes = [] ∧
    (create rejectEnv "Bad Name" "rest" 8000 "3.11" [] false false none kraftCatalog).events
      = .error (pyOrStr (rejectEnv.validate "Bad Name").error "Invalid service name") ::
        (if pyTruthy (rejectEnv.validate "Bad Name").suggestion then
          [.info ("Suggestion: " ++ (rejectEnv.validate "Bad Name").suggestion.getD "")]
         else []) :=
  create_invalid_name rejectEnv "Bad Name" "rest" "3.11" 8000 [] false false none kraftCatalog rfl

end Kraft
